import Mathlib

/-!
Shallow embedding of the YT-Playlist-Downloader orchestration core
(src/error_handling.py, src/database.py, src/youtube_downloader.py)
and verification of its specification claims.

Machine reals (Python floats used only for timestamps and delays) are
modelled as rationals; the uniform jitter sample is passed explicitly as
an argument bounded by the ±25% range in the theorems that need it.
-/

namespace YTPD

/-- Error kinds, mirroring `ErrorType` in src/error_handling.py. -/
inductive ErrorType where
  | network
  | quota
  | unavailable
  | permission
  | diskFull
  | formatErr
  | unknown
deriving DecidableEq

/-- Keyword group for network errors (src/error_handling.py lines 101-104). -/
def networkKeywords : List String :=
  ["network", "connection", "timeout", "unreachable", "http error 5",
   "temporary failure", "unable to connect", "connection refused"]

/-- Keyword group for quota / rate-limit errors (lines 108-110). -/
def quotaKeywords : List String :=
  ["quota exceeded", "rate limit", "too many requests", "http error 429"]

/-- Keyword group for unavailable-video errors (lines 114-117). -/
def unavailableKeywords : List String :=
  ["video unavailable", "private video", "deleted", "not available",
   "blocked in your country", "age-restricted", "http error 404"]

/-- Keyword group for permission errors (lines 121-123). -/
def permissionKeywords : List String :=
  ["permission denied", "access denied", "forbidden", "http error 403"]

/-- Keyword group for disk-space errors (lines 127-129). -/
def diskFullKeywords : List String :=
  ["no space left", "disk full", "insufficient space"]

/-- Keyword group for format errors (lines 133-135). -/
def formatKeywords : List String :=
  ["no video formats found", "format not available", "unsupported format"]

/-- Boolean contiguous-substring test on character lists. -/
def containsSub (needle : List Char) : List Char → Bool
  | [] => needle.isEmpty
  | c :: rest => needle.isPrefixOf (c :: rest) || containsSub needle rest

/-- Python `any(keyword in msg for keyword in kws)`: substring containment
of one of the keywords in the (already lowercased) message. -/
def containsKeyword (msg : List Char) (kws : List String) : Bool :=
  kws.any (fun kw => containsSub kw.toList msg)

/-- Python `error_msg.lower()`, as the character list the keyword search
runs over. -/
def lowerChars (s : String) : List Char := s.toList.map Char.toLower

/-- Mirrors `ErrorClassifier.classify_ytdlp_error` (error_handling.py lines
95-139): lowercase the message, then first matching keyword group wins;
anything unmatched is Unknown.  Only the error kind of the produced
exception is modelled; message and url are carried through unchanged. -/
def classify_ytdlp_error (error_msg : String) : ErrorType :=
  let m := lowerChars error_msg
  if containsKeyword m networkKeywords then .network
  else if containsKeyword m quotaKeywords then .quota
  else if containsKeyword m unavailableKeywords then .unavailable
  else if containsKeyword m permissionKeywords then .permission
  else if containsKeyword m diskFullKeywords then .diskFull
  else if containsKeyword m formatKeywords then .formatErr
  else .unknown

/-- Mirrors `RetryConfig` (error_handling.py lines 23-35), with the same
defaults; delays are rationals in place of floats. -/
structure RetryConfig where
  max_attempts : Nat := 3
  base_delay : ℚ := 1
  max_delay : ℚ := 60
  exponential_base : ℚ := 2
  jitter : Bool := true
  retryable_errors : List ErrorType := [.network, .quota, .unknown]
deriving DecidableEq

/-- The default configuration used by the `with_retry()` decorator
(`RetryManager(None)` falls back to `RetryConfig()`). -/
def defaultRetryConfig : RetryConfig := {}

/-- The delay before jitter: `min(base_delay * exponential_base^(attempt-1),
max_delay)` (error_handling.py lines 151-152). -/
def rawDelay (cfg : RetryConfig) (attempt : Nat) : ℚ :=
  min (cfg.base_delay * cfg.exponential_base ^ (attempt - 1)) cfg.max_delay

/-- Mirrors `RetryManager.calculate_delay` (lines 149-159).  `jit` is the
value returned by `random.uniform(-jitter_range, jitter_range)`; theorems
that depend on its distribution assume `|jit| ≤ rawDelay/4`. -/
def calculate_delay (cfg : RetryConfig) (attempt : Nat) (jit : ℚ) : ℚ :=
  max 0 (if cfg.jitter then rawDelay cfg attempt + jit else rawDelay cfg attempt)

/-- Mirrors `RetryManager.should_retry` (lines 161-166). -/
def should_retry (cfg : RetryConfig) (e : ErrorType) (attempt : Nat) : Bool :=
  if cfg.max_attempts ≤ attempt then false
  else cfg.retryable_errors.contains e

/-- Outcome of a run of `RetryManager.retry`. -/
inductive RetryOutcome where
  | ok
  | raised (e : ErrorType)
  | raisedNone
deriving DecidableEq

/-- Observable trace of one run of `RetryManager.retry`: the outcome, how
many times the wrapped operation was invoked, and the backoff sleeps
performed between attempts, in order. -/
structure RetryTrace where
  outcome : RetryOutcome
  attemptsMade : Nat
  sleeps : List ℚ
deriving DecidableEq

/-- The body of the `for attempt in range(1, max_attempts + 1)` loop of
`RetryManager.retry` (lines 168-212).  `result n = none` means attempt `n`
of the operation succeeds; `some e` means it raises an error classified as
`e` (the `except DownloadError` and generic `except` branches act
identically on the classified kind).  `jit n` is the jitter sample drawn
if attempt `n` sleeps.  `fuel` is the number of loop iterations left;
running out of fuel is Python's fall-through `raise last_error`. -/
def retryLoop (cfg : RetryConfig) (result : Nat → Option ErrorType) (jit : Nat → ℚ) :
    Nat → Option ErrorType → Nat → RetryTrace
  | _, lastError, 0 =>
    { outcome := match lastError with
        | some e => .raised e
        | none => .raisedNone,
      attemptsMade := 0, sleeps := [] }
  | attempt, _, fuel + 1 =>
    match result attempt with
    | none => { outcome := .ok, attemptsMade := 1, sleeps := [] }
    | some e =>
      if should_retry cfg e attempt then
        let rest := retryLoop cfg result jit (attempt + 1) (some e) fuel
        let sl := if attempt < cfg.max_attempts
          then [calculate_delay cfg attempt (jit attempt)] else []
        { outcome := rest.outcome,
          attemptsMade := 1 + rest.attemptsMade,
          sleeps := sl ++ rest.sleeps }
      else { outcome := .raised e, attemptsMade := 1, sleeps := [] }

/-- Mirrors `RetryManager.retry` (lines 168-212): iterate the loop body
from attempt 1 with `max_attempts` iterations and `last_error = None`. -/
def retry (cfg : RetryConfig) (result : Nat → Option ErrorType) (jit : Nat → ℚ) :
    RetryTrace :=
  retryLoop cfg result jit 1 none cfg.max_attempts

/-- Bounded search for the first attempt number `n ≥ start` (within `fuel`
attempts) whose error kind is not retry-eligible under `cfg`. -/
def firstNonRetrySearch (cfg : RetryConfig) (err : Nat → ErrorType) :
    Nat → Nat → Option Nat
  | _, 0 => none
  | n, fuel + 1 =>
    if cfg.retryable_errors.contains (err n) then
      firstNonRetrySearch cfg err (n + 1) fuel
    else some n

/-- The first attempt whose classified kind is not retryable; when every
attempt the engine could make is retryable, the first non-retryable
attempt lies beyond the budget and is represented by `max_attempts + 1`
(any value above the budget gives the same `min`). -/
def firstNonRetryableAttempt (cfg : RetryConfig) (err : Nat → ErrorType) : Nat :=
  match firstNonRetrySearch cfg err 1 cfg.max_attempts with
  | some k => k
  | none => cfg.max_attempts + 1

/-- Mirrors the observable fields of the `DownloadError` exception
(error_handling.py lines 38-47); its constructor defaults `error_type`
to `ErrorType.UNKNOWN`. -/
structure DownloadError where
  message : String
  error_type : ErrorType
deriving DecidableEq

/-- The fail-fast guards at the top of `_download_single_video`
(youtube_downloader.py lines 262-266): a blocked circuit breaker or a
requested shutdown raises a bare `DownloadError(message)`, whose kind is
therefore the constructor default `UNKNOWN`.  Returns the raised error,
or `none` when neither guard fires. -/
def downloadGuardError (canExec shutdownRequested : Bool) : Option DownloadError :=
  if canExec = false then
    some { message := "Circuit breaker is open - too many failures",
           error_type := .unknown }
  else if shutdownRequested then
    some { message := "Shutdown requested", error_type := .unknown }
  else none

/-- Per-attempt result of a job that starts while shutdown is requested:
every attempt hits the shutdown guard and raises its error. -/
def shutdownJobResult : Nat → Option ErrorType :=
  fun _ => (downloadGuardError true true).map (fun e => e.error_type)

/-- Circuit-breaker states (the Python string field
`state ∈ 'closed' | 'open' | 'half-open'`). -/
inductive CBState where
  | closed
  | opened
  | halfOpen
deriving DecidableEq

/-- Mirrors `CircuitBreaker.__init__` fields (error_handling.py lines
229-234): `last_failure_time` starts as `None`. -/
structure CircuitBreaker where
  failure_threshold : Nat
  timeout : ℚ
  failure_count : Nat
  last_failure_time : Option ℚ
  state : CBState
deriving DecidableEq

/-- A freshly constructed breaker: zero failures, no failure time, Closed. -/
def CircuitBreaker.init (threshold : Nat) (timeout : ℚ) : CircuitBreaker :=
  { failure_threshold := threshold, timeout := timeout, failure_count := 0,
    last_failure_time := none, state := .closed }

/-- Mirrors `CircuitBreaker.can_execute` (lines 237-250), which both
returns a Bool and may mutate `state`; modelled as (returned value,
updated breaker).  `now` is `time.time()`. -/
def can_execute (cb : CircuitBreaker) (now : ℚ) : Bool × CircuitBreaker :=
  match cb.state with
  | .closed => (true, cb)
  | .opened =>
    match cb.last_failure_time with
    | some t =>
      if cb.timeout < now - t then (true, { cb with state := .halfOpen })
      else (false, cb)
    | none => (false, cb)
  | .halfOpen => (true, cb)

/-- Mirrors `CircuitBreaker.record_success` (lines 252-257): a no-op
unless the breaker is half-open. -/
def record_success (cb : CircuitBreaker) : CircuitBreaker :=
  if cb.state = .halfOpen then
    { cb with state := .closed, failure_count := 0 }
  else cb

/-- Mirrors `CircuitBreaker.record_failure` (lines 259-267). -/
def record_failure (cb : CircuitBreaker) (now : ℚ) : CircuitBreaker :=
  let cb2 := { cb with failure_count := cb.failure_count + 1,
                       last_failure_time := some now }
  if cb2.failure_threshold ≤ cb2.failure_count then
    if cb2.state ≠ .opened then { cb2 with state := .opened } else cb2
  else cb2

/-- A sequence of `record_failure` calls at the given timestamps. -/
def record_failures (cb : CircuitBreaker) (times : List ℚ) : CircuitBreaker :=
  times.foldl record_failure cb

/-- The columns of the `downloads` table touched by
`update_download_status` (database.py). -/
structure DownloadRow where
  id : String
  status : String
  downloaded_bytes : Nat
  error_message : String
  started_at : Option ℚ
  completed_at : Option ℚ
deriving DecidableEq

/-- The SET clause built by `update_download_status` (database.py lines
183-195) applied to one row: status is always written; `downloading`
additionally writes bytes and `started_at` only when `downloaded_bytes`
is not None; `completed` stamps `completed_at`; `failed` stores the error
message only when one is given and non-empty (Python truthiness). -/
def updateRowFields (status : String) (bytes? : Option Nat)
    (error_message? : Option String) (now : ℚ) (row : DownloadRow) : DownloadRow :=
  let row2 := { row with status := status }
  if status = "downloading" then
    match bytes? with
    | some b => { row2 with downloaded_bytes := b, started_at := some now }
    | none => row2
  else if status = "completed" then { row2 with completed_at := some now }
  else if status = "failed" then
    match error_message? with
    | some m => if m = "" then row2 else { row2 with error_message := m }
    | none => row2
  else row2

/-- Mirrors `DownloadDatabase.update_download_status` (lines 176-209):
the UPDATE hits every row whose id matches (id is the primary key, so at
most one), and the call returns `cursor.rowcount > 0`, i.e. whether some
row had the given id. -/
def update_download_status (db : List DownloadRow) (download_id status : String)
    (bytes? : Option Nat) (error_message? : Option String) (now : ℚ) :
    List DownloadRow × Bool :=
  (db.map (fun r => if r.id = download_id
      then updateRowFields status bytes? error_message? now r else r),
   db.any (fun r => r.id = download_id))

/-- The columns of the `download_sessions` table used by the session
lifecycle (database.py lines 91-104). -/
structure SessionRow where
  id : String
  status : String
  total_videos : Nat
  completed_videos : Nat
  failed_videos : Nat
  completed_at : Option ℚ
deriving DecidableEq

/-- Mirrors `DownloadDatabase.complete_session` (lines 337-349): stamps
`completed_at` and writes the given status (the parameter defaults to
"completed" in Python). -/
def complete_session (row : SessionRow) (now : ℚ) (status : String) : SessionRow :=
  { row with completed_at := some now, status := status }

/-- The `as_completed` result-processing loop of `download_playlist`
(youtube_downloader.py lines 368-388): results arrive in completion
order; before handling result `i` the loop breaks if shutdown is
requested; a `True` result increments `success_count`, anything else
(`False` or a raised exception) increments `failed_count`.  Returns the
final `(success_count, failed_count)`. -/
def drainLoop (shutdown : Nat → Bool) :
    List Bool → Nat → Nat → Nat → Nat × Nat
  | [], _, s, f => (s, f)
  | r :: rest, i, s, f =>
    if shutdown i then (s, f)
    else drainLoop shutdown rest (i + 1)
      (if r then s + 1 else s) (if r then f else f + 1)

/-- The normal (no escaping exception) tail of `download_playlist`
(lines 356-409): run the drain loop from fresh counters, write the final
counters into the session row (`update_session_stats`), then call
`complete_session(self.session_id)` with its default status. -/
def download_playlist_finalize (sid : String) (total : Nat) (results : List Bool)
    (shutdown : Nat → Bool) (now : ℚ) : SessionRow :=
  let counts := drainLoop shutdown results 0 0 0
  complete_session
    { id := sid, status := "active", total_videos := total,
      completed_videos := counts.1, failed_videos := counts.2,
      completed_at := none }
    now "completed"

/-- The WHERE predicate of `cleanup_old_sessions` (database.py lines
373-376): `status IN ('completed', 'cancelled') AND completed_at < cutoff`
(a NULL `completed_at` never satisfies the comparison). -/
def sessionDeleted (cutoff : ℚ) (s : SessionRow) : Bool :=
  (s.status = "completed" || s.status = "cancelled") &&
    (match s.completed_at with
     | some t => decide (t < cutoff)
     | none => false)

/-- Mirrors `DownloadDatabase.cleanup_old_sessions` (lines 366-385):
`cutoff = now - days*24*60*60`; rows matching the DELETE predicate are
removed, all others kept.  The Python function returns `None`; only the
resulting table is modelled. -/
def cleanup_old_sessions (sessions : List SessionRow) (now : ℚ) (days : Nat) :
    List SessionRow :=
  let cutoff := now - (days : ℚ) * 24 * 60 * 60
  sessions.filter (fun s => ! sessionDeleted cutoff s)

/-! ## Claim statements taken verbatim from the specification

Each `claimCn` formalises a claim exactly as the spec states it; the
claims that fail on the code are refuted through these propositions and
then re-proved in amended form. -/

/-- Claim C3 as stated: a message containing "connection refused",
"timeout", or an HTTP 5xx marker yields Network; one containing "429" or
"too many requests" yields QuotaExceeded; one containing "403" or
"forbidden" yields Permission; a message matching none of the listed
keyword groups yields Unknown. -/
def claimC3 : Prop :=
  ∀ msg : String,
    (containsKeyword (lowerChars msg)
        ["connection refused", "timeout", "http error 5"] = true →
      classify_ytdlp_error msg = .network) ∧
    (containsKeyword (lowerChars msg) ["429", "too many requests"] = true →
      classify_ytdlp_error msg = .quota) ∧
    (containsKeyword (lowerChars msg) ["403", "forbidden"] = true →
      classify_ytdlp_error msg = .permission) ∧
    (containsKeyword (lowerChars msg)
        (networkKeywords ++ quotaKeywords ++ unavailableKeywords ++
         permissionKeywords ++ diskFullKeywords ++ formatKeywords) = false →
      classify_ytdlp_error msg = .unknown)

/-- Monotonicity of the keyword search in the keyword list. -/
lemma containsKeyword_sub {m : List Char} {ks ks2 : List String}
    (hsub : ∀ k, k ∈ ks → k ∈ ks2) (h : containsKeyword m ks = true) :
    containsKeyword m ks2 = true := by
  simp only [containsKeyword, List.any_eq_true] at h ⊢
  obtain ⟨k, hk, hc⟩ := h
  exact ⟨k, hsub k hk, hc⟩

/-- C3, counterexample: the message "429" satisfies the claim's
QuotaExceeded premise (it contains "429") but the classifier returns
Unknown, because the quota keyword group matches only the full phrase
"http error 429". -/
theorem c3_counterexample : ¬ claimC3 := by
  intro h
  exact absurd ((h "429").2.1 (by decide)) (by decide)

/-- C3, amended: classification is first-matching-group-wins over the
fixed group order; containing "connection refused", "timeout", or the
HTTP-5xx marker "http error 5" yields Network; containing the full marker
"http error 429" (not bare "429") or "too many requests" yields
QuotaExceeded when no earlier group matches; containing the full marker
"http error 403" (not bare "403") or "forbidden" yields Permission when
no earlier group matches; a message matching none of the classifier's
keyword groups yields Unknown. -/
theorem c3_amended (msg : String) :
    (containsKeyword (lowerChars msg)
        ["connection refused", "timeout", "http error 5"] = true →
      classify_ytdlp_error msg = .network) ∧
    (containsKeyword (lowerChars msg) networkKeywords = false →
      containsKeyword (lowerChars msg)
        ["http error 429", "too many requests"] = true →
      classify_ytdlp_error msg = .quota) ∧
    (containsKeyword (lowerChars msg) networkKeywords = false →
      containsKeyword (lowerChars msg) quotaKeywords = false →
      containsKeyword (lowerChars msg) unavailableKeywords = false →
      containsKeyword (lowerChars msg)
        ["http error 403", "forbidden"] = true →
      classify_ytdlp_error msg = .permission) ∧
    (containsKeyword (lowerChars msg) networkKeywords = false →
      containsKeyword (lowerChars msg) quotaKeywords = false →
      containsKeyword (lowerChars msg) unavailableKeywords = false →
      containsKeyword (lowerChars msg) permissionKeywords = false →
      containsKeyword (lowerChars msg) diskFullKeywords = false →
      containsKeyword (lowerChars msg) formatKeywords = false →
      classify_ytdlp_error msg = .unknown) := by
  refine ⟨?_, ?_, ?_, ?_⟩
  · intro h
    have hn : containsKeyword (lowerChars msg) networkKeywords = true :=
      containsKeyword_sub (by intro k hk; fin_cases hk <;> simp [networkKeywords]) h
    simp [classify_ytdlp_error, hn]
  · intro hnet h
    have hq : containsKeyword (lowerChars msg) quotaKeywords = true :=
      containsKeyword_sub (by intro k hk; fin_cases hk <;> simp [quotaKeywords]) h
    simp [classify_ytdlp_error, hnet, hq]
  · intro hnet hq hun h
    have hp : containsKeyword (lowerChars msg) permissionKeywords = true :=
      containsKeyword_sub (by intro k hk; fin_cases hk <;> simp [permissionKeywords]) h
    simp [classify_ytdlp_error, hnet, hq, hun, hp]
  · intro hnet hq hun hp hd hf
    simp [classify_ytdlp_error, hnet, hq, hun, hp, hd, hf]

/-- C3, witness: the amended theorem evaluated on concrete messages from
each group. -/
theorem c3_witness :
    classify_ytdlp_error "timeout" = .network ∧
    classify_ytdlp_error "http error 429" = .quota ∧
    classify_ytdlp_error "forbidden" = .permission ∧
    classify_ytdlp_error "oops" = .unknown :=
  ⟨(c3_amended "timeout").1 (by decide),
   (c3_amended "http error 429").2.1 (by decide) (by decide),
   (c3_amended "forbidden").2.2.1 (by decide) (by decide) (by decide) (by decide),
   (c3_amended "oops").2.2.2 (by decide) (by decide) (by decide) (by decide)
     (by decide) (by decide)⟩

/-- Every `record_failure` call preserves the configuration, increments
the failure count, and stamps the failure time. -/
lemma record_failure_fields (cb : CircuitBreaker) (t : ℚ) :
    (record_failure cb t).failure_threshold = cb.failure_threshold ∧
    (record_failure cb t).timeout = cb.timeout ∧
    (record_failure cb t).failure_count = cb.failure_count + 1 ∧
    (record_failure cb t).last_failure_time = some t := by
  unfold record_failure
  by_cases h1 : cb.failure_threshold ≤ cb.failure_count + 1 <;>
    by_cases h2 : cb.state = CBState.opened <;> simp [h1, h2]

/-- A failure that reaches the threshold leaves the breaker Open,
whatever state it was in. -/
lemma record_failure_opens (cb : CircuitBreaker) (t : ℚ)
    (h : cb.failure_threshold ≤ cb.failure_count + 1) :
    (record_failure cb t).state = .opened := by
  unfold record_failure
  by_cases h2 : cb.state = CBState.opened <;> simp [h, h2]

/-- Folding failures over a list: configuration is preserved and the
count grows by the list length. -/
lemma record_failures_basic (ts : List ℚ) (cb : CircuitBreaker) :
    (record_failures cb ts).failure_threshold = cb.failure_threshold ∧
    (record_failures cb ts).timeout = cb.timeout ∧
    (record_failures cb ts).failure_count = cb.failure_count + ts.length := by
  induction ts generalizing cb with
  | nil => simp [record_failures]
  | cons t ts ih =>
    have hstep : record_failures cb (t :: ts) = record_failures (record_failure cb t) ts := rfl
    obtain ⟨ih1, ih2, ih3⟩ := ih (record_failure cb t)
    obtain ⟨f1, f2, f3, _⟩ := record_failure_fields cb t
    rw [hstep]
    refine ⟨by rw [ih1, f1], by rw [ih2, f2], ?_⟩
    rw [ih3, f3]
    simp
    omega

/-- Peeling the last failure off a run of failures. -/
lemma record_failures_append (cb : CircuitBreaker) (ts : List ℚ) (t : ℚ) :
    record_failures cb (ts ++ [t]) = record_failure (record_failures cb ts) t := by
  simp [record_failures, List.foldl_append]

/-- A fresh breaker with threshold `n`, after exactly `n` failures ending
at time `tl`, is fully determined: Open, count `n`, last failure `tl`. -/
lemma record_failures_init_full (n : Nat) (T : ℚ) (ts : List ℚ) (tl : ℚ)
    (hlen : ts.length + 1 = n) :
    record_failures (CircuitBreaker.init n T) (ts ++ [tl]) =
      { failure_threshold := n, timeout := T, failure_count := n,
        last_failure_time := some tl, state := .opened } := by
  rw [record_failures_append]
  obtain ⟨hth, hto, hfc⟩ := record_failures_basic ts (CircuitBreaker.init n T)
  have hth2 : (record_failures (CircuitBreaker.init n T) ts).failure_threshold = n := hth
  have hto2 : (record_failures (CircuitBreaker.init n T) ts).timeout = T := hto
  have hfc2 : (record_failures (CircuitBreaker.init n T) ts).failure_count = ts.length := by
    rw [hfc]; simp [CircuitBreaker.init]
  have hcond : (record_failures (CircuitBreaker.init n T) ts).failure_threshold ≤
      (record_failures (CircuitBreaker.init n T) ts).failure_count + 1 := by
    rw [hth2, hfc2]; omega
  unfold record_failure
  by_cases hst : (record_failures (CircuitBreaker.init n T) ts).state = CBState.opened <;>
    simp [hcond, hst, hth2, hto2, hfc2, hlen]

/-- Claim C4 (confirmed): starting Closed, after `failure_threshold`
`record_failure` calls with no intervening success the breaker is Open and
`can_execute` returns false; it returns true exactly when
`now - last_failure_time > timeout`, transitioning to half-open, and a
`record_success` in that half-open state resets the count to 0 and the
state to Closed. -/
theorem c4_breaker (n : Nat) (T : ℚ) (ts : List ℚ) (tl : ℚ) (now : ℚ)
    (cb : CircuitBreaker)
    (hlen : ts.length + 1 = n)
    (hcb : cb = record_failures (CircuitBreaker.init n T) (ts ++ [tl])) :
    cb.state = .opened ∧
    cb.failure_count = n ∧
    cb.last_failure_time = some tl ∧
    ((can_execute cb now).1 = true ↔ T < now - tl) ∧
    (T < now - tl → (can_execute cb now).2.state = .halfOpen) ∧
    (¬ T < now - tl → (can_execute cb now).2 = cb) ∧
    (record_success (can_execute cb (tl + T + 1)).2).state = .closed ∧
    (record_success (can_execute cb (tl + T + 1)).2).failure_count = 0 := by
  rw [hcb, record_failures_init_full n T ts tl hlen]
  have hprobe : T < tl + T + 1 - tl := by linarith
  refine ⟨rfl, rfl, rfl, ?_, ?_, ?_, ?_, ?_⟩
  · by_cases hc : T < now - tl <;> simp [can_execute, hc]
  · intro hc; simp [can_execute, hc]
  · intro hc; simp [can_execute, hc]
  · simp [can_execute, hprobe, record_success]
  · simp [can_execute, hprobe, record_success]

/-- C4, witness: threshold 1, one failure at time 0, probe at time 5. -/
theorem c4_witness :
    (record_failures (CircuitBreaker.init 1 1) ([] ++ [(0 : ℚ)])).state = .opened :=
  (c4_breaker 1 1 [] 0 5 _ rfl rfl).1

/-- Claim C10 (confirmed): `record_success` on a breaker that is not
half-open changes nothing at all; consequently failures separated by
successes still accumulate, as the concrete threshold-2 trace
fail, success, fail (which ends Open) shows. -/
theorem c10_record_success_frame (cb : CircuitBreaker) (h : cb.state ≠ .halfOpen) :
    record_success cb = cb ∧
    (record_failure (record_success (record_failure (CircuitBreaker.init 2 60) 0)) 1).state
      = .opened := by
  constructor
  · unfold record_success
    simp [h]
  · simp [record_failure, record_success, CircuitBreaker.init]

/-- C10, witness: a freshly constructed (Closed) breaker is untouched by
`record_success`. -/
theorem c10_witness :
    record_success (CircuitBreaker.init 5 300) = CircuitBreaker.init 5 300 :=
  (c10_record_success_frame (CircuitBreaker.init 5 300) (by decide)).1

/-- Bounds on the bounded search: a found index lies in the searched
window. -/
lemma firstNonRetrySearch_lb (cfg : RetryConfig) (err : Nat → ErrorType) :
    ∀ (fuel a k : Nat),
      firstNonRetrySearch cfg err a fuel = some k → a ≤ k ∧ k < a + fuel := by
  intro fuel
  induction fuel with
  | zero => intro a k h; simp [firstNonRetrySearch] at h
  | succ f ih =>
    intro a k h
    unfold firstNonRetrySearch at h
    by_cases hc : cfg.retryable_errors.contains (err a) = true
    · rw [if_pos hc] at h
      have := ih (a + 1) k h
      omega
    · rw [if_neg hc] at h
      simp at h
      omega

/-- Characterization of the retry loop on a run where every attempt
fails: the number of attempts is determined by the first non-retryable
attempt (or the fuel, if all errors seen are retryable), and the raised
error is the one of the last attempt performed. -/
lemma retryLoop_allFail (cfg : RetryConfig) (err : Nat → ErrorType) (jit : Nat → ℚ)
    (fuel : Nat) :
    ∀ (a : Nat) (le : Option ErrorType),
      1 ≤ fuel → a + fuel = cfg.max_attempts + 1 →
      ((retryLoop cfg (fun n => some (err n)) jit a le fuel).attemptsMade =
        (firstNonRetrySearch cfg err a fuel).elim fuel (fun k => k + 1 - a)) ∧
      ((retryLoop cfg (fun n => some (err n)) jit a le fuel).outcome =
        .raised (err (a +
          (firstNonRetrySearch cfg err a fuel).elim fuel (fun k => k + 1 - a) - 1))) := by
  induction fuel with
  | zero => intro a le h; exact absurd h (by omega)
  | succ f ih =>
    intro a le _ hsum
    cases f with
    | zero =>
      have ha : a = cfg.max_attempts := by omega
      have hsr : should_retry cfg (err a) a = false := by
        unfold should_retry
        simp [ha]
      by_cases hc : cfg.retryable_errors.contains (err a) = true
      · have hcm : err a ∈ cfg.retryable_errors := by simpa using hc
        simp [retryLoop, hsr, firstNonRetrySearch, hc, hcm]
      · have hcm : err a ∉ cfg.retryable_errors := by simpa using hc
        simp [retryLoop, hsr, firstNonRetrySearch, hc, hcm, Nat.add_sub_cancel_left]
    | succ f2 =>
      have ha : a < cfg.max_attempts := by omega
      have hsr : should_retry cfg (err a) a = cfg.retryable_errors.contains (err a) := by
        unfold should_retry
        simp [Nat.not_le.mpr ha]
      by_cases hc : cfg.retryable_errors.contains (err a) = true
      · obtain ⟨hm, ho⟩ := ih (a + 1) (some (err a)) (by omega) (by omega)
        have hcm : err a ∈ cfg.retryable_errors := by simpa using hc
        have hsearch : firstNonRetrySearch cfg err a (f2 + 1 + 1) =
            firstNonRetrySearch cfg err (a + 1) (f2 + 1) := by
          conv_lhs => unfold firstNonRetrySearch
          simp [hc, hcm]
        have hstep : retryLoop cfg (fun n => some (err n)) jit a le (f2 + 1 + 1) =
            { outcome :=
                (retryLoop cfg (fun n => some (err n)) jit (a + 1) (some (err a)) (f2 + 1)).outcome,
              attemptsMade :=
                1 + (retryLoop cfg (fun n => some (err n)) jit (a + 1) (some (err a))
                  (f2 + 1)).attemptsMade,
              sleeps := (if a < cfg.max_attempts
                  then [calculate_delay cfg a (jit a)] else []) ++
                (retryLoop cfg (fun n => some (err n)) jit (a + 1) (some (err a))
                  (f2 + 1)).sleeps } := by
          conv_lhs => unfold retryLoop
          simp [hsr, hc, hcm]
        rw [hstep, hsearch]
        cases hs : firstNonRetrySearch cfg err (a + 1) (f2 + 1) with
        | some k =>
          have hlb := firstNonRetrySearch_lb cfg err (f2 + 1) (a + 1) k hs
          simp only [hs, Option.elim_some] at hm ho
          simp only [Option.elim_some]
          refine ⟨by rw [hm]; omega, ?_⟩
          rw [ho]
          have heq : a + 1 + (k + 1 - (a + 1)) - 1 = a + (k + 1 - a) - 1 := by omega
          rw [heq]
        | none =>
          simp only [hs, Option.elim_none] at hm ho
          simp only [Option.elim_none]
          refine ⟨by rw [hm]; omega, ?_⟩
          rw [ho]
          have heq : a + 1 + (f2 + 1) - 1 = a + (f2 + 1 + 1) - 1 := by omega
          rw [heq]
      · have hcm : err a ∉ cfg.retryable_errors := by simpa using hc
        have hsearch : firstNonRetrySearch cfg err a (f2 + 1 + 1) = some a := by
          conv_lhs => unfold firstNonRetrySearch
          simp [hc, hcm]
        have hstep : retryLoop cfg (fun n => some (err n)) jit a le (f2 + 1 + 1) =
            { outcome := .raised (err a), attemptsMade := 1, sleeps := [] } := by
          conv_lhs => unfold retryLoop
          simp [hsr, hc, hcm]
        rw [hstep, hsearch]
        simp [Nat.add_sub_cancel_left]

/-- Claim C5 (confirmed): on a run where every attempt fails, the retry
engine performs exactly `min(max_attempts, firstNonRetryableAttempt)`
attempts of the operation and raises the error classified at the last
attempt performed; in particular an attempt whose kind is not retryable
propagates immediately. -/
theorem c5_retry_attempts (cfg : RetryConfig) (err : Nat → ErrorType) (jit : Nat → ℚ)
    (hmax : 1 ≤ cfg.max_attempts) :
    (retry cfg (fun n => some (err n)) jit).attemptsMade =
      min cfg.max_attempts (firstNonRetryableAttempt cfg err) ∧
    (retry cfg (fun n => some (err n)) jit).outcome =
      .raised (err ((retry cfg (fun n => some (err n)) jit).attemptsMade)) := by
  obtain ⟨hm, ho⟩ :=
    retryLoop_allFail cfg err jit cfg.max_attempts 1 none hmax (by omega)
  unfold retry
  cases hs : firstNonRetrySearch cfg err 1 cfg.max_attempts with
  | some k =>
    have hlb := firstNonRetrySearch_lb cfg err cfg.max_attempts 1 k hs
    have hfa : firstNonRetryableAttempt cfg err = k := by
      unfold firstNonRetryableAttempt
      rw [hs]
    simp only [hs, Option.elim_some] at hm ho
    have hmk : k + 1 - 1 = k := by omega
    rw [hmk] at hm ho
    refine ⟨?_, ?_⟩
    · rw [hm, hfa]
      omega
    · rw [ho, hm]
      have h1k : 1 + k - 1 = k := by omega
      rw [h1k]
  | none =>
    have hfa : firstNonRetryableAttempt cfg err = cfg.max_attempts + 1 := by
      unfold firstNonRetryableAttempt
      rw [hs]
    simp only [hs, Option.elim_none] at hm ho
    refine ⟨?_, ?_⟩
    · rw [hm, hfa]
      omega
    · rw [ho, hm]
      have h1m : 1 + cfg.max_attempts - 1 = cfg.max_attempts := by omega
      rw [h1m]

/-- C5, witness: with the default policy and every attempt failing with
the non-retryable Unavailable kind, exactly one attempt is made and its
error is raised. -/
theorem c5_witness :
    (retry defaultRetryConfig (fun n => some ((fun _ => ErrorType.unavailable) n))
        (fun _ => 0)).attemptsMade =
      min defaultRetryConfig.max_attempts
        (firstNonRetryableAttempt defaultRetryConfig (fun _ => ErrorType.unavailable)) ∧
    (retry defaultRetryConfig (fun n => some ((fun _ => ErrorType.unavailable) n))
        (fun _ => 0)).outcome =
      .raised ((fun _ => ErrorType.unavailable)
        ((retry defaultRetryConfig (fun n => some ((fun _ => ErrorType.unavailable) n))
          (fun _ => 0)).attemptsMade)) :=
  c5_retry_attempts defaultRetryConfig (fun _ => .unavailable) (fun _ => 0) (by decide)

/-- Claim C2 as stated: whenever a per-job attempt is blocked by the
circuit breaker or by a requested shutdown, the job fails fast with an
error that the retry engine does not retry — no further attempts, no
backoff sleep. -/
def claimC2 : Prop :=
  ∀ (canExec shutdownRequested : Bool) (e : DownloadError) (jit : Nat → ℚ),
    downloadGuardError canExec shutdownRequested = some e →
    (retry defaultRetryConfig (fun _ => some e.error_type) jit).attemptsMade = 1 ∧
    (retry defaultRetryConfig (fun _ => some e.error_type) jit).sleeps = []

/-- C2, counterexample: with the circuit breaker blocking, the guard
raises a DownloadError whose kind is the constructor default Unknown;
Unknown is retry-eligible under the default policy, so the engine makes
all three attempts instead of one. -/
theorem c2_counterexample : ¬ claimC2 := by
  intro h
  obtain ⟨h1, _⟩ := h false false
    { message := "Circuit breaker is open - too many failures",
      error_type := .unknown }
    (fun _ => 0) rfl
  simp [retry, retryLoop, should_retry, defaultRetryConfig] at h1

/-- C2, amended: a blocked attempt (circuit open or shutdown requested)
raises a DownloadError whose kind is Unknown — not a dedicated
CircuitOpen/ShutdownRequested kind — and Unknown is in the default
retryable set, so the retry engine does retry it: a persistently blocked
job undergoes the full `max_attempts` attempts with a backoff sleep
between consecutive attempts. -/
theorem c2_amended (canExec shutdownRequested : Bool) (e : DownloadError)
    (jit : Nat → ℚ)
    (hg : downloadGuardError canExec shutdownRequested = some e) :
    e.error_type = .unknown ∧
    should_retry defaultRetryConfig e.error_type 1 = true ∧
    (retry defaultRetryConfig (fun _ => some e.error_type) jit).attemptsMade =
      defaultRetryConfig.max_attempts ∧
    (retry defaultRetryConfig (fun _ => some e.error_type) jit).sleeps.length =
      defaultRetryConfig.max_attempts - 1 := by
  have he : e.error_type = .unknown := by
    unfold downloadGuardError at hg
    by_cases h1 : canExec = false
    · rw [if_pos h1] at hg
      cases hg
      rfl
    · rw [if_neg h1] at hg
      by_cases h2 : shutdownRequested = true
      · rw [if_pos h2] at hg
        cases hg
        rfl
      · rw [if_neg h2] at hg
        exact absurd hg (by simp)
  rw [he]
  refine ⟨rfl, by decide, ?_, ?_⟩ <;>
    simp [retry, retryLoop, should_retry, defaultRetryConfig]

/-- C2, witness: the amended theorem at the concrete circuit-open error
with zero jitter. -/
theorem c2_witness :
    (retry defaultRetryConfig
        (fun _ => some (({ message := "Circuit breaker is open - too many failures",
                           error_type := ErrorType.unknown } : DownloadError).error_type))
        (fun _ => 0)).attemptsMade = defaultRetryConfig.max_attempts :=
  (c2_amended false false _ (fun _ => 0) rfl).2.2.1

/-- Claim C9 as stated (the refutable part): once shutdown has been
requested, every subsequent retry wait is skipped — a job whose attempts
all hit the shutdown guard performs no backoff sleep. -/
def claimC9 : Prop :=
  ∀ jit : Nat → ℚ,
    (retry defaultRetryConfig shutdownJobResult jit).sleeps = []

/-- C9, counterexample: the retry engine never consults the shutdown
flag; a job whose every attempt hits the shutdown guard is retried with
the usual backoff sleeps (two sleeps under the default policy), so retry
waits are not skipped. -/
theorem c9_counterexample : ¬ claimC9 := by
  intro h
  have h0 := h (fun _ => 0)
  simp [shutdownJobResult, downloadGuardError, retry, retryLoop, should_retry,
    defaultRetryConfig] at h0

/-- C9, amended: requesting shutdown stops the orchestrator's
result-processing loop, but the retry engine itself never reads the
shutdown flag: a job whose attempts start after shutdown fails each
attempt with the (retryable, Unknown-kind) "Shutdown requested" error and
still performs all `max_attempts` attempts with strictly positive backoff
sleeps in between — retry waits are not shortened to zero. -/
theorem c9_amended (jit : Nat → ℚ)
    (h1 : |jit 1| ≤ 1 / 4) (h2 : |jit 2| ≤ 1 / 2) :
    (retry defaultRetryConfig shutdownJobResult jit).attemptsMade = 3 ∧
    (retry defaultRetryConfig shutdownJobResult jit).sleeps =
      [calculate_delay defaultRetryConfig 1 (jit 1),
       calculate_delay defaultRetryConfig 2 (jit 2)] ∧
    ∀ s ∈ (retry defaultRetryConfig shutdownJobResult jit).sleeps, 0 < s := by
  have hd1 : calculate_delay defaultRetryConfig 1 (jit 1) = max 0 (1 + jit 1) := by
    norm_num [calculate_delay, rawDelay, defaultRetryConfig]
  have hd2 : calculate_delay defaultRetryConfig 2 (jit 2) = max 0 (2 + jit 2) := by
    norm_num [calculate_delay, rawDelay, defaultRetryConfig]
  have hs : (retry defaultRetryConfig shutdownJobResult jit).sleeps =
      [calculate_delay defaultRetryConfig 1 (jit 1),
       calculate_delay defaultRetryConfig 2 (jit 2)] := by
    simp [retry, retryLoop, should_retry, defaultRetryConfig, shutdownJobResult,
      downloadGuardError]
  refine ⟨?_, hs, ?_⟩
  · simp [retry, retryLoop, should_retry, defaultRetryConfig, shutdownJobResult,
      downloadGuardError]
  · intro s hmem
    rw [hs] at hmem
    simp at hmem
    obtain ⟨hj1, _⟩ := abs_le.mp h1
    obtain ⟨hj2, _⟩ := abs_le.mp h2
    rcases hmem with h | h <;> rw [h]
    · rw [hd1]
      exact lt_max_iff.mpr (Or.inr (by linarith))
    · rw [hd2]
      exact lt_max_iff.mpr (Or.inr (by linarith))

/-- C9, witness: the amended theorem with zero jitter. -/
theorem c9_witness :
    (retry defaultRetryConfig shutdownJobResult (fun _ => 0)).attemptsMade = 3 :=
  (c9_amended (fun _ => 0) (by norm_num) (by norm_num)).1

/-- Claim C6 as stated: `calculate_delay` is always ≥ 0 (even at maximal
negative jitter, which the clamp handles), and with jitter disabled it is
non-decreasing in the attempt number for every policy. -/
def claimC6 : Prop :=
  (∀ (cfg : RetryConfig) (n : Nat) (jit : ℚ), 0 ≤ calculate_delay cfg n jit) ∧
  (∀ (cfg : RetryConfig) (n : Nat) (jit : ℚ), 1 ≤ n → cfg.jitter = false →
    calculate_delay cfg n jit ≤ calculate_delay cfg (n + 1) jit)

/-- C6, counterexample: monotonicity fails for a policy whose growth
factor is below 1 — with `exponential_base = 1/2` and jitter disabled the
delay for attempt 2 (1/2) is strictly below the delay for attempt 1 (1). -/
theorem c6_counterexample : ¬ claimC6 := by
  intro h
  have h12 := h.2 { exponential_base := 1 / 2, jitter := false } 1 0 le_rfl rfl
  norm_num [calculate_delay, rawDelay, min_def, max_def] at h12

/-- C6, amended: the computed delay is always ≥ 0 (for any jitter sample,
thanks to the final clamp), and for policies whose growth factor is at
least 1 it is non-decreasing in the attempt number when jitter is
disabled. -/
theorem c6_amended (cfg : RetryConfig) (n : Nat) (jit : ℚ)
    (hn : 1 ≤ n) (hg : 1 ≤ cfg.exponential_base) :
    0 ≤ calculate_delay cfg n jit ∧
    (cfg.jitter = false →
      calculate_delay cfg n jit ≤ calculate_delay cfg (n + 1) jit) := by
  constructor
  · exact le_max_left 0 _
  · intro hj
    have hg0 : (0 : ℚ) ≤ cfg.exponential_base := le_trans zero_le_one hg
    simp only [calculate_delay, hj, Bool.false_eq_true, if_false]
    rcases le_or_lt 0 cfg.base_delay with hb | hb
    · apply max_le_max le_rfl
      unfold rawDelay
      apply min_le_min _ le_rfl
      exact mul_le_mul_of_nonneg_left (pow_le_pow_right₀ hg (by omega)) hb
    · have hzero : ∀ m : Nat, max 0 (rawDelay cfg m) = 0 := by
        intro m
        apply max_eq_left
        calc rawDelay cfg m ≤ cfg.base_delay * cfg.exponential_base ^ (m - 1) :=
              min_le_left _ _
          _ ≤ 0 := mul_nonpos_iff.mpr (Or.inr ⟨hb.le, pow_nonneg hg0 _⟩)
      rw [hzero n, hzero (n + 1)]

/-- C6, witness: the amended theorem at the default policy, attempt 1,
zero jitter. -/
theorem c6_witness : 0 ≤ calculate_delay defaultRetryConfig 1 0 :=
  (c6_amended defaultRetryConfig 1 0 le_rfl (by norm_num [defaultRetryConfig])).1

/-- Claim C7 as stated (the refuted part): every call that sets status to
`downloading` stamps `started_at` on the matching row. -/
def claimC7 : Prop :=
  ∀ (db : List DownloadRow) (download_id : String) (bytes? : Option Nat)
    (em? : Option String) (now : ℚ) (r : DownloadRow),
    r ∈ (update_download_status db download_id "downloading" bytes? em? now).1 →
    r.id = download_id → r.started_at = some now

/-- C7, counterexample: a `downloading` update carrying no byte count —
exactly what `_download_single_video` issues at youtube_downloader.py
line 278 — leaves `started_at` untouched on the matching row. -/
theorem c7_counterexample : ¬ claimC7 := by
  intro h
  have hmem : ({ id := "x", status := "downloading", downloaded_bytes := 0,
                 error_message := "", started_at := none,
                 completed_at := none } : DownloadRow) ∈
      (update_download_status
        [{ id := "x", status := "pending", downloaded_bytes := 0,
           error_message := "", started_at := none, completed_at := none }]
        "x" "downloading" none none 0).1 := by
    simp [update_download_status, updateRowFields]
  have hres := h _ "x" none none 0 _ hmem rfl
  simp at hres

/-- C7, amended: the update is partial — `downloading` stamps
`started_at` (and the byte counter) exactly when a byte count is
supplied and leaves it unchanged otherwise; `completed` stamps
`completed_at`; `failed` stores the error message exactly when a
non-empty one is supplied; the status column itself is always written;
and the call reports whether some row carried the given id. -/
theorem c7_amended (r : DownloadRow) (b : Nat) (bytes? : Option Nat)
    (em? : Option String) (m : String) (now : ℚ)
    (db : List DownloadRow) (download_id st : String)
    (hm : m ≠ "") :
    (updateRowFields "downloading" (some b) em? now r).started_at = some now ∧
    (updateRowFields "downloading" (some b) em? now r).downloaded_bytes = b ∧
    (updateRowFields "downloading" none em? now r).started_at = r.started_at ∧
    (updateRowFields "completed" bytes? em? now r).completed_at = some now ∧
    (updateRowFields "failed" bytes? (some m) now r).error_message = m ∧
    (updateRowFields st bytes? em? now r).status = st ∧
    ((update_download_status db download_id st bytes? em? now).2 = true ↔
      ∃ x ∈ db, x.id = download_id) := by
  refine ⟨by simp [updateRowFields], by simp [updateRowFields],
    by simp [updateRowFields], by simp [updateRowFields],
    by simp [updateRowFields, hm], ?_, ?_⟩
  · unfold updateRowFields
    by_cases h1 : st = "downloading"
    · rw [if_pos h1]
      cases bytes? <;> simp
    · rw [if_neg h1]
      by_cases h2 : st = "completed"
      · simp [h2]
      · rw [if_neg h2]
        by_cases h3 : st = "failed"
        · rw [if_pos h3]
          cases em? with
          | none => simp
          | some m2 => by_cases h4 : m2 = "" <;> simp [h4]
        · simp [h3]
  · simp [update_download_status]

/-- C7, witness: the amended theorem at a concrete row and arguments. -/
theorem c7_witness :
    (updateRowFields "downloading" (some 5) none 0
      { id := "x", status := "pending", downloaded_bytes := 0,
        error_message := "", started_at := none, completed_at := none }).started_at
      = some 0 :=
  (c7_amended _ 5 none none "boom" 0 [] "x" "pending" (by decide)).1

/-- The DELETE predicate of `cleanup_old_sessions` in Prop form. -/
lemma sessionDeleted_eq_true (cutoff : ℚ) (s : SessionRow) :
    sessionDeleted cutoff s = true ↔
      ((s.status = "completed" ∨ s.status = "cancelled") ∧
        ∃ t, s.completed_at = some t ∧ t < cutoff) := by
  unfold sessionDeleted
  cases h : s.completed_at with
  | none => simp [h]
  | some t => simp [h]

/-- Claim C8 as stated: `cleanup_old_sessions` deletes exactly the
sessions in a terminal state — Completed, Failed, or Cancelled — whose
completion time is older than the retention cutoff, keeping all other
rows. -/
def claimC8 : Prop :=
  ∀ (sessions : List SessionRow) (now : ℚ) (days : Nat),
    cleanup_old_sessions sessions now days =
      sessions.filter (fun s =>
        ! ((s.status = "completed" || s.status = "failed" || s.status = "cancelled") &&
           (match s.completed_at with
            | some t => decide (t < now - (days : ℚ) * 24 * 60 * 60)
            | none => false)))

/-- C8, counterexample: an old Failed session (completed_at = 0, thirty
days before `now`) is terminal and older than the window, so the claim
deletes it, but the SQL filter lists only 'completed' and 'cancelled'
and keeps it. -/
theorem c8_counterexample : ¬ claimC8 := by
  intro h
  have h1 := h
    [{ id := "s1", status := "failed", total_videos := 0, completed_videos := 0,
       failed_videos := 0, completed_at := some 0 }] 2592001 30
  norm_num [cleanup_old_sessions, sessionDeleted] at h1
  simp at h1

/-- C8, amended: a session is kept exactly unless its status is
Completed or Cancelled (Failed rows are never deleted) and its
completion time is strictly older than `now - days·24·60·60`; in
particular every Failed session survives cleanup.  (The Python function
also returns `None`, not the removed count.) -/
theorem c8_amended (sessions : List SessionRow) (now : ℚ) (days : Nat)
    (s : SessionRow) (hs : s ∈ sessions) (hf : s.status = "failed") :
    (∀ r : SessionRow, r ∈ cleanup_old_sessions sessions now days ↔
      (r ∈ sessions ∧
        ¬ ((r.status = "completed" ∨ r.status = "cancelled") ∧
          ∃ t, r.completed_at = some t ∧ t < now - (days : ℚ) * 24 * 60 * 60))) ∧
    s ∈ cleanup_old_sessions sessions now days := by
  have hchar : ∀ r : SessionRow, r ∈ cleanup_old_sessions sessions now days ↔
      (r ∈ sessions ∧
        ¬ ((r.status = "completed" ∨ r.status = "cancelled") ∧
          ∃ t, r.completed_at = some t ∧ t < now - (days : ℚ) * 24 * 60 * 60)) := by
    intro r
    rw [← sessionDeleted_eq_true (now - (days : ℚ) * 24 * 60 * 60) r]
    simp [cleanup_old_sessions, List.mem_filter]
  refine ⟨hchar, (hchar s).mpr ⟨hs, ?_⟩⟩
  rw [hf]
  simp

/-- C8, witness: the amended theorem on a one-row table holding an old
Failed session. -/
theorem c8_witness :
    ({ id := "s1", status := "failed", total_videos := 0, completed_videos := 0,
       failed_videos := 0, completed_at := some 0 } : SessionRow) ∈
      cleanup_old_sessions
        [{ id := "s1", status := "failed", total_videos := 0, completed_videos := 0,
           failed_videos := 0, completed_at := some 0 }] 2592001 30 :=
  (c8_amended _ 2592001 30 _ (by simp) rfl).2

/-- Claim C1 as stated (shutdown-free arm): on drain the session status
is Completed when zero jobs failed, Failed otherwise. -/
def claimC1 : Prop :=
  ∀ (results : List Bool) (now : ℚ),
    (download_playlist_finalize "s" results.length results (fun _ => false) now).status =
      (if (drainLoop (fun _ => false) results 0 0 0).2 = 0 then "completed" else "failed")

/-- C1, counterexample: the 3-item run with one failed job ends with the
session marked "completed" (the code always calls `complete_session`
with its default status on the normal path), not "failed" as the claim
requires. -/
theorem c1_counterexample : ¬ claimC1 := by
  intro h
  have h1 := h [true, false, true] 0
  simp [download_playlist_finalize, drainLoop, complete_session] at h1

/-- C1, amended: on the normal (no escaping exception) path the session
is always finalized with status "completed", whatever the failure count
and the shutdown flag; the counters record the successes and failures
among the processed results; the 3-item run with one non-retryable
failure ends with completedJobs = 2, failedJobs = 1, status =
"completed" (status "failed" is written only by the exception handler of
`download_playlist`, and no code path writes "cancelled"). -/
theorem c1_amended (sid : String) (total : Nat) (results : List Bool)
    (shutdown : Nat → Bool) (now : ℚ) :
    (download_playlist_finalize sid total results shutdown now).status = "completed" ∧
    (download_playlist_finalize sid total results (fun _ => false) now).completed_videos =
      results.count true ∧
    (download_playlist_finalize sid total results (fun _ => false) now).failed_videos =
      results.count false ∧
    download_playlist_finalize "s1" 3 [true, false, true] (fun _ => false) now =
      { id := "s1", status := "completed", total_videos := 3,
        completed_videos := 2, failed_videos := 1, completed_at := some now } := by
  have hcounts : ∀ (rs : List Bool) (i s f : Nat),
      drainLoop (fun _ => false) rs i s f =
        (s + rs.count true, f + rs.count false) := by
    intro rs
    induction rs with
    | nil => intro i s f; simp [drainLoop]
    | cons r rest ih =>
      intro i s f
      cases r <;>
        simp only [drainLoop, if_false, Bool.false_eq_true, ih, List.count_cons] <;>
        simp [Prod.ext_iff] <;> omega
  refine ⟨by simp [download_playlist_finalize, complete_session], ?_, ?_, ?_⟩
  · simp [download_playlist_finalize, complete_session, hcounts]
  · simp [download_playlist_finalize, complete_session, hcounts]
  · simp [download_playlist_finalize, complete_session, drainLoop]

end YTPD
